import Mathlib

/-!
Shallow embedding of the eyePGP session-keyed key-derivation and signing
service (src/server2.py).  Byte strings are lists of naturals below 256.
The external cryptographic primitives used by the code (hashlib SHA-256 and
the cryptography library Ed25519 operations) are abstracted as a backend
record `CryptoBackend`; their documented properties (digest length 32,
signature length 64, verification of a freshly produced signature succeeds)
enter the theorems as explicit hypotheses.  Everything written in Python in
server2.py itself (hex codecs, the ASCII armor encoder, the PGP-like packet
builder, the session store and the Flask handlers for sign / verify /
download_keys / process_iris) is translated directly.
-/

/-- Lowercase hexadecimal digit character for a value below 16, as produced
by Python `bytes.hex()`. -/
def hexDigitChar (n : Nat) : Char :=
  if n < 10 then Char.ofNat (48 + n) else Char.ofNat (87 + n)

/-- Hex encoding of a byte list, two lowercase digits per byte, modelling
Python `bytes.hex()`. -/
def hexEncodeList : List Nat → List Char
  | [] => []
  | b :: rest => hexDigitChar (b / 16) :: hexDigitChar (b % 16) :: hexEncodeList rest

/-- String form of `hexEncodeList`. -/
def hexEncode (bs : List Nat) : String := String.mk (hexEncodeList bs)

/-- Value of a single hexadecimal digit character (either case), as accepted
by Python `bytes.fromhex`. -/
def hexVal (c : Char) : Option Nat :=
  if 48 ≤ c.toNat ∧ c.toNat ≤ 57 then some (c.toNat - 48)
  else if 97 ≤ c.toNat ∧ c.toNat ≤ 102 then some (c.toNat - 87)
  else if 65 ≤ c.toNat ∧ c.toNat ≤ 70 then some (c.toNat - 55)
  else none

/-- ASCII whitespace, which Python `bytes.fromhex` skips between byte
pairs. -/
def isPySpace (c : Char) : Bool :=
  c.toNat == 32 || c.toNat == 9 || c.toNat == 10 ||
    c.toNat == 13 || c.toNat == 11 || c.toNat == 12

/-- Python `bytes.fromhex` on a character list: ASCII whitespace may appear
between byte pairs, each byte is exactly two consecutive hex digits; any
other input raises `ValueError`, modelled as `none`. -/
def fromHexList : List Char → Option (List Nat)
  | [] => some []
  | c :: rest =>
    if isPySpace c then fromHexList rest
    else
      match rest with
      | [] => none
      | d :: rest2 =>
        match hexVal c, hexVal d with
        | some hi, some lo =>
          match fromHexList rest2 with
          | some bs => some ((hi * 16 + lo) :: bs)
          | none => none
        | _, _ => none

/-- `bytes.fromhex` on a Lean string. -/
def bytesFromHex (s : String) : Option (List Nat) := fromHexList s.data

/-- UTF-8 encoding of a string, modelling Python `str.encode` with the
default codec. -/
def utf8 (s : String) : List Nat := s.toUTF8.toList.map (fun b => b.toNat)

/-- Character of the standard base64 alphabet for a sextet below 64. -/
def b64Char (v : Nat) : Char :=
  if v < 26 then Char.ofNat (65 + v)
  else if v < 52 then Char.ofNat (71 + v)
  else if v < 62 then Char.ofNat (v - 4)
  else if v = 62 then Char.ofNat 43
  else Char.ofNat 47

/-- Sextet value of a base64 alphabet character. -/
def b64DecVal (c : Char) : Option Nat :=
  if 65 ≤ c.toNat ∧ c.toNat ≤ 90 then some (c.toNat - 65)
  else if 97 ≤ c.toNat ∧ c.toNat ≤ 122 then some (c.toNat - 71)
  else if 48 ≤ c.toNat ∧ c.toNat ≤ 57 then some (c.toNat + 4)
  else if c.toNat = 43 then some 62
  else if c.toNat = 47 then some 63
  else none

/-- Standard base64 encoding with padding, modelling Python
`base64.b64encode`. -/
def b64EncodeList : List Nat → List Char
  | [] => []
  | [a] => [b64Char (a / 4), b64Char (a % 4 * 16), '=', '=']
  | [a, b] => [b64Char (a / 4), b64Char (a % 4 * 16 + b / 16), b64Char (b % 16 * 4), '=']
  | a :: b :: c :: rest =>
    b64Char (a / 4) :: b64Char (a % 4 * 16 + b / 16) ::
      b64Char (b % 16 * 4 + c / 64) :: b64Char (c % 64) :: b64EncodeList rest

/-- Standard base64 decoding (inverse of `b64EncodeList`), modelled from the
spec requirement that the armor body be reversible by base64 decoding. -/
def b64DecodeList : List Char → Option (List Nat)
  | [] => some []
  | c1 :: c2 :: c3 :: c4 :: rest =>
    match b64DecVal c1, b64DecVal c2 with
    | some x, some y =>
      if c3 = '=' then
        if c4 = '=' ∧ rest = [] then some [x * 4 + y / 16] else none
      else
        match b64DecVal c3 with
        | some z =>
          if c4 = '=' then
            if rest = [] then some [x * 4 + y / 16, y % 16 * 16 + z / 4] else none
          else
            match b64DecVal c4 with
            | some w =>
              match b64DecodeList rest with
              | some tail =>
                some ((x * 4 + y / 16) :: (y % 16 * 16 + z / 4) :: (z % 4 * 64 + w) :: tail)
              | none => none
            | none => none
        | none => none
    | _, _ => none
  | _ => none

/-- Split a character list into chunks of 64, mirroring the Python loop
`for i in range(0, len(b64_data), 64)` in `create_pgp_armor`. -/
def chunk64 : List Char → List (List Char)
  | [] => []
  | c :: rest => ((c :: rest).take 64) :: chunk64 ((c :: rest).drop 64)
termination_by l => l.length
decreasing_by simp [List.length_drop]; omega

/-- Concatenation of a list of character lists. -/
def concatAll : List (List Char) → List Char
  | [] => []
  | l :: ls => l ++ concatAll ls

/-- Abstract interface to the external cryptographic primitives used by
server2.py: hashlib SHA-256, Ed25519 public-key derivation, signing, and
verification.  `verifyOk pk sig msg` is true exactly when the library call
`public_key.verify(sig, msg)` returns without raising (the code catches
every exception from that call and maps it to `valid = false`). -/
structure CryptoBackend where
  sha256 : List Nat → List Nat
  derivePub : List Nat → List Nat
  sign : List Nat → List Nat → List Nat
  verifyOk : List Nat → List Nat → List Nat → Bool

/-- Entropy derivation: `sha256(data).digest()[:32]` (server2.py lines 37
and 74, server.py line 147, core_logic.py line 33). -/
def deriveEntropy (cr : CryptoBackend) (data : List Nat) : List Nat :=
  (cr.sha256 data).take 32

/-- Line list built by `create_pgp_armor` (server2.py lines 102-122) before
joining: header, optional comment (Python truthiness: an empty comment
string is skipped), blank separator, base64 body in 64-character chunks,
checksum line `=` plus base64 of the first 3 bytes of SHA-256(data), and
footer. -/
def create_pgp_armor_lines (cr : CryptoBackend) (data : List Nat)
    (header_type : String) (comment : Option String) : List String :=
  ["-----BEGIN PGP " ++ header_type ++ "-----"]
    ++ (match comment with
        | none => []
        | some c => if c = "" then [] else ["Comment: " ++ c])
    ++ [""]
    ++ (chunk64 (b64EncodeList data)).map String.mk
    ++ ["=" ++ String.mk (b64EncodeList ((cr.sha256 data).take 3)),
        "-----END PGP " ++ header_type ++ "-----"]

/-- `create_pgp_armor` returns the lines joined with single newlines. -/
def create_pgp_armor (cr : CryptoBackend) (data : List Nat)
    (header_type : String) (comment : Option String) : String :=
  String.intercalate ("\n") (create_pgp_armor_lines cr data header_type comment)

/-- The body lines of a rendered armored block, read off the line list as
the lines strictly between the blank separator line and the checksum line
(the checksum and footer are the final two lines). -/
def armorBody (ls : List String) : List String :=
  ((List.dropWhile (fun l => l != "") ls).drop 1).dropLast.dropLast

/-- Four-byte big-endian encoding, modelling `timestamp.to_bytes(4, 'big')`
in `ed25519_to_pgp_format`. -/
def be4 (t : Nat) : List Nat :=
  [t / 16777216 % 256, t / 65536 % 256, t / 256 % 256, t % 256]

/-- `ed25519_to_pgp_format` (server2.py lines 124-156): simplified PGP-like
private and public packets.  0x04 is the version byte, 0x16 = 22 the
Ed25519 algorithm id. -/
def ed25519_to_pgp_format (private_bytes public_bytes : List Nat)
    (timestamp : Nat) : List Nat × List Nat :=
  ([4] ++ be4 timestamp ++ [22] ++ private_bytes ++ public_bytes,
   [4] ++ be4 timestamp ++ [22] ++ public_bytes)

/-- One stored session: key pair, creation stamp and derivation method
(the values of the `active_keys` dict in server2.py). -/
structure Session where
  private_key : List Nat
  public_key : List Nat
  created : Nat
  method : String
deriving DecidableEq

/-- The global `active_keys` mapping, session id to session.  Insertion
prepends; lookup takes the first binding, matching dict semantics. -/
abbrev Store := List (String × Session)

/-- Dictionary lookup: `session_id in active_keys` /
`active_keys[session_id]`. -/
def lookupStore : Store → String → Option Session
  | [], _ => none
  | (k, v) :: rest, sid => if k = sid then some v else lookupStore rest sid

/-- The PGP-style signed message block rendered by `sign_data`
(server2.py lines 277-285). -/
def signedMessageBlock (message sigHex : String) : String :=
  "-----BEGIN PGP SIGNED MESSAGE-----\nHash: SHA256\n\n" ++ message
    ++ "\n-----BEGIN PGP SIGNATURE-----\nComment: Signed with Anarchy Auth biometric key\n\n"
    ++ sigHex ++ "\n-----END PGP SIGNATURE-----"

/-- Outcome of the `/sign` handler. -/
inductive SignResult where
  | sessionNotFound : SignResult
  | emptyMessage : SignResult
  | ok (signed_message signature_hex message_hash : String) : SignResult
deriving DecidableEq

/-- `sign_data` (server2.py lines 255-295): session lookup, empty-message
check, Ed25519 signature over the UTF-8 message bytes, hex-encoded. -/
def sign_data (cr : CryptoBackend) (store : Store) (session_id message : String) : SignResult :=
  match lookupStore store session_id with
  | none => SignResult.sessionNotFound
  | some s =>
    if message = "" then SignResult.emptyMessage
    else
      SignResult.ok
        (signedMessageBlock message (hexEncode (cr.sign s.private_key (utf8 message))))
        (hexEncode (cr.sign s.private_key (utf8 message)))
        (hexEncode (cr.sha256 (utf8 message)))

/-- Outcome of the `/verify` handler.  `verificationFailed` is the outer
exception handler (reached when `bytes.fromhex` raises); `verdict` is the
normal `valid = true / false` response. -/
inductive VerifyResult where
  | sessionNotFound : VerifyResult
  | missingInput : VerifyResult
  | verificationFailed : VerifyResult
  | verdict (valid : Bool) : VerifyResult
deriving DecidableEq

/-- `verify_signature` (server2.py lines 297-333): session lookup,
required-input check, hex decode (failure reaches the outer handler), then
the library verify call with every exception mapped to `valid = false`. -/
def verify_signature (cr : CryptoBackend) (store : Store)
    (session_id message signature_hex : String) : VerifyResult :=
  match lookupStore store session_id with
  | none => VerifyResult.sessionNotFound
  | some s =>
    if message = "" ∨ signature_hex = "" then VerifyResult.missingInput
    else
      match bytesFromHex signature_hex with
      | none => VerifyResult.verificationFailed
      | some sig =>
        if cr.verifyOk s.public_key sig (utf8 message) then VerifyResult.verdict true
        else VerifyResult.verdict false

/-- Outcome of the `/download_keys` handler. -/
inductive DownloadResult where
  | sessionNotFound : DownloadResult
  | invalidKeyType : DownloadResult
  | file (filename contents : String) : DownloadResult
deriving DecidableEq

/-- `download_keys` (server2.py lines 210-253): session lookup, then the
private or public packet armored under the matching header, else the
invalid-key-type error. -/
def download_keys (cr : CryptoBackend) (store : Store)
    (key_type session_id : String) (timestamp : Nat) : DownloadResult :=
  match lookupStore store session_id with
  | none => DownloadResult.sessionNotFound
  | some s =>
    if key_type = "private" then
      DownloadResult.file ("anarchy-auth-private-" ++ session_id.take 8 ++ ".asc")
        (create_pgp_armor cr (ed25519_to_pgp_format s.private_key s.public_key timestamp).1
          ("PRIVATE KEY BLOCK") (some ("Generated by Anarchy Auth - " ++ s.method)))
    else if key_type = "public" then
      DownloadResult.file ("anarchy-auth-public-" ++ session_id.take 8 ++ ".asc")
        (create_pgp_armor cr (ed25519_to_pgp_format s.private_key s.public_key timestamp).2
          ("PUBLIC KEY BLOCK") (some ("Generated by Anarchy Auth - " ++ s.method)))
    else DownloadResult.invalidKeyType

/-- Outcome of the external collaborators consulted by
`process_iris_image`: the iris library may be unavailable (hash fallback),
fail on both eye sides, produce no codes, or produce a template byte
buffer. -/
inductive PipelineResult where
  | unavailable : PipelineResult
  | pipelineFailure (e : String) : PipelineResult
  | noCodes : PipelineResult
  | codes (tmpl : List Nat) : PipelineResult

/-- Result of `process_iris_image` (server2.py lines 27-100): an error
string, or private key bytes, public key bytes and the derivation method. -/
inductive IrisOutcome where
  | failure (msg : String) : IrisOutcome
  | success (private_key public_key : List Nat) (method : String) : IrisOutcome
deriving DecidableEq

/-- `process_iris_image`: image load check, then entropy and key derivation
from either the flattened pixels (fallback) or the iris template bytes.
`img` is `none` when `cv2.imread` fails. -/
def process_iris_image (cr : CryptoBackend) (img : Option (List Nat))
    (pipe : PipelineResult) : IrisOutcome :=
  match img with
  | none => IrisOutcome.failure ("Could not load image file")
  | some pixels =>
    match pipe with
    | PipelineResult.unavailable =>
      IrisOutcome.success (deriveEntropy cr pixels)
        (cr.derivePub (deriveEntropy cr pixels)) ("image_hash")
    | PipelineResult.pipelineFailure e =>
      IrisOutcome.failure ("Iris processing failed: " ++ e)
    | PipelineResult.noCodes =>
      IrisOutcome.failure ("No iris codes generated from image")
    | PipelineResult.codes tmpl =>
      IrisOutcome.success (deriveEntropy cr tmpl)
        (cr.derivePub (deriveEntropy cr tmpl)) ("iris_biometric")

/-- Session id generation in `process_iris` (server2.py line 191): first 16
hex characters of SHA-256 over the time string concatenated with the
public-key hex. -/
def makeSessionId (cr : CryptoBackend) (timeStr : String) (public_key : List Nat) : String :=
  String.mk ((hexEncodeList (cr.sha256 (utf8 (timeStr ++ hexEncode public_key)))).take 16)

/-- Outcome of the `/process_iris` handler. -/
inductive ProcessResult where
  | failure (msg : String) : ProcessResult
  | success (session_id : String) : ProcessResult
deriving DecidableEq

/-- `process_iris` (server2.py lines 185-204): on derivation success insert
exactly one complete session and return its id; on failure return the error
and leave the store untouched. -/
def process_iris (cr : CryptoBackend) (store : Store) (img : Option (List Nat))
    (pipe : PipelineResult) (timeStr : String) (created : Nat) : ProcessResult × Store :=
  match process_iris_image cr img pipe with
  | IrisOutcome.failure e => (ProcessResult.failure e, store)
  | IrisOutcome.success priv pub m =>
    (ProcessResult.success (makeSessionId cr timeStr pub),
     (makeSessionId cr timeStr pub, Session.mk priv pub created m) :: store)

/-- Concrete backend whose verify call always succeeds, used to instantiate
theorems at concrete inputs. -/
def cbOk : CryptoBackend :=
  CryptoBackend.mk (fun _ => List.replicate 32 0) (fun sk => sk)
    (fun _ _ => List.replicate 64 0) (fun _ _ _ => true)

/-- Concrete backend whose verify call always fails, matching the library
behaviour on a signature it rejects (for instance one of the wrong
length). -/
def cbNever : CryptoBackend :=
  CryptoBackend.mk (fun _ => List.replicate 32 0) (fun sk => sk)
    (fun _ _ => List.replicate 64 0) (fun _ _ _ => false)

/-- A stored session with degenerate one-byte keys (its public key equals
`cbOk.derivePub` of its private key). -/
def demoSession : Session := Session.mk [1] [1] 0 ("image_hash")

/-- A store holding `demoSession` under a 16-character hex id. -/
def demoStore : Store := [("abcdef0123456789", demoSession)]

/-- A stored session with 32-byte keys, for the key-export theorems. -/
def demoSession32 : Session :=
  Session.mk (List.replicate 32 1) (List.replicate 32 2) 0 ("iris_biometric")

/-- A store holding `demoSession32`. -/
def demoStore32 : Store := [("0123456789abcdef", demoSession32)]

/-- Hex digits are reconstructed by `hexVal`. -/
theorem hexVal_hexDigitChar : ∀ n < 16, hexVal (hexDigitChar n) = some n := by decide

/-- Hex digits are not ASCII whitespace. -/
theorem isPySpace_hexDigitChar : ∀ n < 16, isPySpace (hexDigitChar n) = false := by decide

/-- `bytes.fromhex` inverts `bytes.hex()` on byte lists. -/
theorem fromHexList_hexEncodeList :
    ∀ bs : List Nat, (∀ b ∈ bs, b < 256) → fromHexList (hexEncodeList bs) = some bs
  | [], _ => rfl
  | b :: rest, h => by
    have hb : b < 256 := h b (List.mem_cons_self _ _)
    have ih := fromHexList_hexEncodeList rest (fun x hx => h x (List.mem_cons_of_mem _ hx))
    have h1 : b / 16 < 16 := by omega
    have h2 : b % 16 < 16 := by omega
    simp only [hexEncodeList, fromHexList, isPySpace_hexDigitChar _ h1,
      hexVal_hexDigitChar _ h1, hexVal_hexDigitChar _ h2, Bool.false_eq_true, if_false, ih]
    have : b / 16 * 16 + b % 16 = b := by omega
    rw [this]

/-- Length of the hex encoding. -/
theorem hexEncodeList_length : ∀ bs : List Nat, (hexEncodeList bs).length = 2 * bs.length
  | [] => rfl
  | _ :: rest => by simp [hexEncodeList, hexEncodeList_length rest]; omega

/-- Data of a string built from a character list. -/
theorem data_mk (l : List Char) : (String.mk l).data = l := rfl

/-- A string built from a non-empty character list is non-empty. -/
theorem mk_ne_empty (l : List Char) (h : l ≠ []) : String.mk l ≠ "" := by
  intro he
  exact h (congrArg String.data he)

/-- Base64 characters are reconstructed by `b64DecVal`. -/
theorem b64DecVal_b64Char : ∀ v < 64, b64DecVal (b64Char v) = some v := by decide

/-- Base64 alphabet characters are never the padding character. -/
theorem b64Char_ne_pad : ∀ v < 64, b64Char v ≠ '=' := by decide

/-- Base64 decoding inverts base64 encoding on byte lists. -/
theorem b64_roundtrip :
    ∀ bs : List Nat, (∀ b ∈ bs, b < 256) → b64DecodeList (b64EncodeList bs) = some bs
  | [], _ => rfl
  | [a], h => by
    have ha : a < 256 := h a (by simp)
    have h1 : a / 4 < 64 := by omega
    have h2 : a % 4 * 16 < 64 := by omega
    simp only [b64EncodeList, b64DecodeList, b64DecVal_b64Char _ h1, b64DecVal_b64Char _ h2]
    simp only [if_pos rfl, and_self, if_true, Option.some.injEq, List.cons.injEq, and_true]
    omega
  | [a, b], h => by
    have ha : a < 256 := h a (by simp)
    have hb : b < 256 := h b (by simp)
    have h1 : a / 4 < 64 := by omega
    have h2 : a % 4 * 16 + b / 16 < 64 := by omega
    have h3 : b % 16 * 4 < 64 := by omega
    simp only [b64EncodeList, b64DecodeList, b64DecVal_b64Char _ h1, b64DecVal_b64Char _ h2,
      b64DecVal_b64Char _ h3]
    rw [if_neg (b64Char_ne_pad _ h3)]
    simp only [if_pos rfl, if_true, Option.some.injEq, List.cons.injEq, and_true]
    refine ⟨by omega, by omega⟩
  | a :: b :: c :: rest, h => by
    have ha : a < 256 := h a (by simp)
    have hb : b < 256 := h b (by simp)
    have hc : c < 256 := h c (by simp)
    have ih := b64_roundtrip rest (fun x hx => h x (by simp [hx]))
    have h1 : a / 4 < 64 := by omega
    have h2 : a % 4 * 16 + b / 16 < 64 := by omega
    have h3 : b % 16 * 4 + c / 64 < 64 := by omega
    have h4 : c % 64 < 64 := by omega
    simp only [b64EncodeList, b64DecodeList, b64DecVal_b64Char _ h1, b64DecVal_b64Char _ h2,
      b64DecVal_b64Char _ h3, b64DecVal_b64Char _ h4]
    rw [if_neg (b64Char_ne_pad _ h3), if_neg (b64Char_ne_pad _ h4)]
    simp only [ih, Option.some.injEq, List.cons.injEq, and_true]
    refine ⟨by omega, by omega, by omega⟩

/-- Concatenating the 64-character chunks restores the original list. -/
theorem chunk64_concat : ∀ l : List Char, concatAll (chunk64 l) = l := by
  intro l
  induction l using chunk64.induct with
  | case1 => simp [chunk64, concatAll]
  | case2 c rest ih =>
    rw [chunk64, concatAll, ih, List.take_append_drop]

/-- `chunk64` returns the empty list only on the empty list. -/
theorem chunk64_eq_nil (l : List Char) : chunk64 l = [] ↔ l = [] := by
  cases l with
  | nil => simp [chunk64]
  | cons c rest => simp [chunk64]

/-- Every chunk except possibly the last has exactly 64 characters. -/
theorem chunk64_dropLast_length :
    ∀ l : List Char, ∀ s ∈ (chunk64 l).dropLast, s.length = 64 := by
  intro l
  induction l using chunk64.induct with
  | case1 => simp [chunk64]
  | case2 c rest ih =>
    rw [chunk64]
    intro s hs
    cases hrec : chunk64 ((c :: rest).drop 64) with
    | nil => rw [hrec] at hs; simp at hs
    | cons t ts =>
      rw [hrec] at hs
      rw [List.dropLast_cons₂] at hs
      rcases List.mem_cons.mp hs with h | h
      · subst h
        have hne : (c :: rest).drop 64 ≠ [] := by
          intro he
          have h0 := (chunk64_eq_nil ((c :: rest).drop 64)).mpr he
          rw [h0] at hrec
          exact List.cons_ne_nil t ts hrec.symm
        have hlen : 64 < rest.length + 1 := by
          by_contra hle
          refine hne (List.drop_eq_nil_of_le ?_)
          simp
          omega
        simp [List.length_take]
        omega
      · exact ih s (by rw [hrec]; exact h)

/-- Every chunk has between 1 and 64 characters. -/
theorem chunk64_mem_length :
    ∀ l : List Char, ∀ s ∈ chunk64 l, 1 ≤ s.length ∧ s.length ≤ 64 := by
  intro l
  induction l using chunk64.induct with
  | case1 => simp [chunk64]
  | case2 c rest ih =>
    rw [chunk64]
    intro s hs
    rcases List.mem_cons.mp hs with h | h
    · subst h
      refine ⟨?_, ?_⟩ <;> simp [List.length_take]
    · exact ih s h

/-- The base64 encoding of a non-empty byte list is non-empty. -/
theorem b64EncodeList_ne_nil : ∀ bs : List Nat, bs ≠ [] → b64EncodeList bs ≠ []
  | [], h => absurd rfl h
  | [_], _ => by simp [b64EncodeList]
  | [_, _], _ => by simp [b64EncodeList]
  | _ :: _ :: _ :: _, _ => by simp [b64EncodeList]

/-- The base64 encoding of a three-byte list has exactly four characters. -/
theorem b64EncodeList_length_three (l : List Nat) (h : l.length = 3) :
    (b64EncodeList l).length = 4 := by
  rcases List.length_eq_three.mp h with ⟨a, b, c, rfl⟩
  simp [b64EncodeList]

/-- A string with positive length is not the empty string. -/
theorem ne_empty_of_length_pos (s : String) (h : 0 < s.length) : s ≠ "" := by
  intro he
  rw [he] at h
  exact absurd h (by decide)

/-- Appending to a non-empty string on the left keeps it non-empty. -/
theorem append_ne_empty_left (a b : String) (ha : a ≠ "") : a ++ b ≠ "" := by
  refine ne_empty_of_length_pos _ ?_
  rw [String.length_append]
  have : a.length ≠ 0 := by
    intro h0
    apply ha
    cases a with
    | mk d =>
      cases d with
      | nil => rfl
      | cons x xs => simp [String.length] at h0
  omega

/-- `dropWhile` over non-empty leading lines stops at the first blank
line. -/
theorem dropWhile_ne_append (pre rest : List String) (h : ∀ l ∈ pre, l ≠ "") :
    List.dropWhile (fun l => l != "") (pre ++ "" :: rest) = "" :: rest := by
  induction pre with
  | nil =>
    rw [List.nil_append, List.dropWhile_cons, if_neg (by simp)]
  | cons p ps ih =>
    have hp : p ≠ "" := h p (by simp)
    rw [List.cons_append, List.dropWhile_cons, if_pos (by simp [hp])]
    exact ih (fun x hx => h x (by simp [hx]))

/-- Dropping the last two elements of a list ending in two given elements. -/
theorem dropLast_pair (xs : List String) (a b : String) :
    ((xs ++ [a, b]).dropLast).dropLast = xs := by
  have h1 : xs ++ [a, b] = (xs ++ [a]) ++ [b] := by simp
  rw [h1, List.dropLast_concat, List.dropLast_concat]

/-- `armorBody` extracts exactly the body part of a line list of the armor
shape. -/
theorem armorBody_shape (pre body : List String) (a b : String)
    (h : ∀ l ∈ pre, l ≠ "") :
    armorBody (pre ++ [""] ++ body ++ [a, b]) = body := by
  unfold armorBody
  have heq : pre ++ [""] ++ body ++ [a, b] = pre ++ "" :: (body ++ [a, b]) := by simp
  rw [heq, dropWhile_ne_append pre (body ++ [a, b]) h]
  rw [List.drop_succ_cons, List.drop_zero]
  exact dropLast_pair body a b

/-- The body lines of a rendered armor block are exactly the 64-character
chunks of the base64 encoding of the data. -/
theorem armorBody_create_pgp_armor_lines (cr : CryptoBackend) (data : List Nat)
    (ht : String) (comment : Option String) :
    armorBody (create_pgp_armor_lines cr data ht comment) =
      (chunk64 (b64EncodeList data)).map String.mk := by
  have hhd : ("-----BEGIN PGP " ++ ht ++ "-----") ≠ "" := by
    refine append_ne_empty_left _ _ (append_ne_empty_left _ _ ?_)
    decide
  unfold create_pgp_armor_lines
  rcases comment with _ | c
  · exact armorBody_shape ["-----BEGIN PGP " ++ ht ++ "-----"] _ _ _
      (by intro l hl; simp at hl; rw [hl]; exact hhd)
  · by_cases hc : c = ""
    · rw [hc]
      simp only [if_pos rfl]
      exact armorBody_shape ["-----BEGIN PGP " ++ ht ++ "-----"] _ _ _
        (by intro l hl; simp at hl; rw [hl]; exact hhd)
    · simp only [if_neg hc]
      refine armorBody_shape ["-----BEGIN PGP " ++ ht ++ "-----", "Comment: " ++ c] _ _ _ ?_
      intro l hl
      simp at hl
      rcases hl with h | h
      · rw [h]; exact hhd
      · rw [h]
        refine append_ne_empty_left _ _ ?_
        decide

/-- Claim C3: for every non-empty byte string, header type and optional
comment (an empty comment string is falsy in Python and counts as no
comment given), the armor encoder produces exactly the BEGIN line, the
optional Comment line, one blank line, the base64 body split into lines of
exactly 64 characters with only the final line possibly shorter (and never
empty), a checksum line `=` followed by the 4 base64 characters of the
first 3 bytes of SHA-256(data), and the END line, joined by single
newlines. -/
theorem claim_c3_armor_format (cr : CryptoBackend) (data : List Nat)
    (ht : String) (comment : Option String)
    (hdata : data ≠ []) (hsha : (cr.sha256 data).length = 32) :
    create_pgp_armor cr data ht comment =
      String.intercalate ("\n")
        (["-----BEGIN PGP " ++ ht ++ "-----"]
          ++ (match comment with
              | none => []
              | some c => if c = "" then [] else ["Comment: " ++ c])
          ++ [""]
          ++ (chunk64 (b64EncodeList data)).map String.mk
          ++ ["=" ++ String.mk (b64EncodeList ((cr.sha256 data).take 3)),
              "-----END PGP " ++ ht ++ "-----"])
    ∧ chunk64 (b64EncodeList data) ≠ []
    ∧ (∀ l ∈ (chunk64 (b64EncodeList data)).dropLast, l.length = 64)
    ∧ (∀ l ∈ chunk64 (b64EncodeList data), 1 ≤ l.length ∧ l.length ≤ 64)
    ∧ concatAll (chunk64 (b64EncodeList data)) = b64EncodeList data
    ∧ (b64EncodeList ((cr.sha256 data).take 3)).length = 4 := by
  refine ⟨rfl, ?_, chunk64_dropLast_length _, chunk64_mem_length _, chunk64_concat _, ?_⟩
  · rw [ne_eq, chunk64_eq_nil]
    exact b64EncodeList_ne_nil data hdata
  · refine b64EncodeList_length_three _ ?_
    rw [List.length_take]
    omega

/-- Claim C3 witness at a concrete input. -/
theorem claim_c3_witness :
    create_pgp_armor cbOk [1, 2, 3] ("TEST") (some ("hi")) =
      String.intercalate ("\n")
        (["-----BEGIN PGP " ++ "TEST" ++ "-----"]
          ++ ["Comment: " ++ "hi"]
          ++ [""]
          ++ (chunk64 (b64EncodeList [1, 2, 3])).map String.mk
          ++ ["=" ++ String.mk (b64EncodeList ((cbOk.sha256 [1, 2, 3]).take 3)),
              "-----END PGP " ++ "TEST" ++ "-----"]) :=
  (claim_c3_armor_format cbOk [1, 2, 3] ("TEST") (some ("hi"))
    (by decide) (by decide)).1

/-- Claim C4: concatenating the base64 body lines of the rendered armored
block (the lines between the blank separator and the checksum line) and
base64-decoding the concatenation reproduces the data exactly. -/
theorem claim_c4_armor_roundtrip (cr : CryptoBackend) (data : List Nat)
    (ht : String) (comment : Option String)
    (_hdata : data ≠ []) (hbytes : ∀ b ∈ data, b < 256) :
    armorBody (create_pgp_armor_lines cr data ht comment) =
      (chunk64 (b64EncodeList data)).map String.mk
    ∧ b64DecodeList
        (concatAll ((armorBody (create_pgp_armor_lines cr data ht comment)).map String.data)) =
      some data := by
  refine ⟨armorBody_create_pgp_armor_lines cr data ht comment, ?_⟩
  rw [armorBody_create_pgp_armor_lines cr data ht comment]
  rw [List.map_map]
  have hid : (chunk64 (b64EncodeList data)).map (String.data ∘ String.mk) =
      chunk64 (b64EncodeList data) := by
    rw [show String.data ∘ String.mk = id from rfl, List.map_id]
  rw [hid, chunk64_concat]
  exact b64_roundtrip data hbytes

/-- Claim C4 witness at a concrete input. -/
theorem claim_c4_witness :
    b64DecodeList
      (concatAll ((armorBody (create_pgp_armor_lines cbOk [1, 2, 3] ("T") none)).map
        String.data)) = some [1, 2, 3] :=
  (claim_c4_armor_roundtrip cbOk [1, 2, 3] ("T") none (by decide) (by decide)).2

/-- Claim C7: the entropy derivation returns exactly the 32-byte SHA-256
digest of the input (the `[:32]` slice is the identity on a 32-byte
digest), and it is deterministic: bit-identical inputs give the identical
seed. -/
theorem claim_c7_entropy_digest (cr : CryptoBackend) (data : List Nat)
    (hsha : (cr.sha256 data).length = 32) :
    deriveEntropy cr data = cr.sha256 data
    ∧ (deriveEntropy cr data).length = 32
    ∧ (∀ d : List Nat, d = data → deriveEntropy cr d = deriveEntropy cr data) := by
  refine ⟨?_, ?_, ?_⟩
  · unfold deriveEntropy
    exact List.take_of_length_le (by omega)
  · unfold deriveEntropy
    rw [List.length_take]
    omega
  · intro d hd
    rw [hd]

/-- Claim C7 witness at a concrete input. -/
theorem claim_c7_witness :
    deriveEntropy cbOk [1, 2, 3] = cbOk.sha256 [1, 2, 3]
    ∧ (deriveEntropy cbOk [1, 2, 3]).length = 32
    ∧ (∀ d : List Nat, d = [1, 2, 3] → deriveEntropy cbOk d = deriveEntropy cbOk [1, 2, 3]) :=
  claim_c7_entropy_digest cbOk [1, 2, 3] (by decide)

/-- Hex encoding of a 64-byte signature is a non-empty string. -/
theorem hexEncode_ne_empty (bs : List Nat) (h : bs ≠ []) : hexEncode bs ≠ "" := by
  refine mk_ne_empty _ ?_
  intro he
  have := hexEncodeList_length bs
  rw [he] at this
  simp at this
  exact h this

/-- Claim C1 counterexample: with a stored session and the 10-hex-character
signature string `0123456789` (valid hex, decoding to 5 bytes, so not 64
bytes long), `verify_signature` returns the normal verdict `valid = false`
(the library rejection is caught by the inner handler), not a structured
encoding error. -/
theorem claim_c1_counterexample :
    verify_signature cbNever demoStore ("abcdef0123456789") ("msg") ("0123456789") =
      VerifyResult.verdict false := by
  rfl

/-- Claim C1 as amended: for a stored session and non-empty inputs, a
signature string that is not valid hex (this includes odd-length hex) makes
`verify_signature` return the structured verification-failure error and no
verdict; a signature string that is valid hex of any decoded length,
including lengths other than 64, is handed to the library verify call, and
when the library rejects it the handler returns the normal verdict
`valid = false` rather than an encoding error. -/
theorem claim_c1_invalid_encoding (cr : CryptoBackend) (store : Store)
    (sid msg sigHex : String) (s : Session)
    (hfind : lookupStore store sid = some s)
    (hmsg : msg ≠ "") (hsig : sigHex ≠ "") :
    (bytesFromHex sigHex = none →
      verify_signature cr store sid msg sigHex = VerifyResult.verificationFailed)
    ∧ (∀ sig : List Nat, bytesFromHex sigHex = some sig → sig.length ≠ 64 →
        cr.verifyOk s.public_key sig (utf8 msg) = false →
        verify_signature cr store sid msg sigHex = VerifyResult.verdict false) := by
  constructor
  · intro hd
    simp [verify_signature, hfind, hmsg, hsig, hd]
  · intro sig hd hlen hv
    simp [verify_signature, hfind, hmsg, hsig, hd, hv]

/-- Claim C1 amended witness: a non-hex signature string errors, a
wrong-length valid-hex one gets a `valid = false` verdict. -/
theorem claim_c1_witness :
    verify_signature cbNever demoStore ("abcdef0123456789") ("m") ("zz") =
      VerifyResult.verificationFailed
    ∧ verify_signature cbNever demoStore ("abcdef0123456789") ("m") ("0123456789") =
      VerifyResult.verdict false := by
  constructor
  · exact (claim_c1_invalid_encoding cbNever demoStore ("abcdef0123456789") ("m") ("zz")
      demoSession rfl (by decide) (by decide)).1 rfl
  · exact (claim_c1_invalid_encoding cbNever demoStore ("abcdef0123456789") ("m")
      ("0123456789") demoSession rfl (by decide) (by decide)).2
      [1, 35, 69, 103, 137] rfl (by decide) rfl

/-- Claim C2: for a stored session whose public key corresponds to its
private key and a non-empty message, signing produces the hex-encoded
signature, and verifying that hex signature for the same session and
message returns the verdict `valid = true`.  The Ed25519 facts (signatures
are 64 bytes of byte values, and a freshly produced signature verifies
under the matching public key) are the library properties stated as
hypotheses. -/
theorem claim_c2_sign_verify_roundtrip (cr : CryptoBackend) (store : Store)
    (sid msg : String) (s : Session)
    (hfind : lookupStore store sid = some s)
    (hmsg : msg ≠ "")
    (hpk : s.public_key = cr.derivePub s.private_key)
    (hlen : (cr.sign s.private_key (utf8 msg)).length = 64)
    (hbytes : ∀ b ∈ cr.sign s.private_key (utf8 msg), b < 256)
    (hver : ∀ sk m, cr.verifyOk (cr.derivePub sk) (cr.sign sk m) m = true) :
    sign_data cr store sid msg =
      SignResult.ok
        (signedMessageBlock msg (hexEncode (cr.sign s.private_key (utf8 msg))))
        (hexEncode (cr.sign s.private_key (utf8 msg)))
        (hexEncode (cr.sha256 (utf8 msg)))
    ∧ verify_signature cr store sid msg (hexEncode (cr.sign s.private_key (utf8 msg))) =
      VerifyResult.verdict true := by
  constructor
  · simp [sign_data, hfind, hmsg]
  · have hne : hexEncode (cr.sign s.private_key (utf8 msg)) ≠ "" := by
      refine hexEncode_ne_empty _ ?_
      intro he
      rw [he] at hlen
      simp at hlen
    have hdec : bytesFromHex (hexEncode (cr.sign s.private_key (utf8 msg))) =
        some (cr.sign s.private_key (utf8 msg)) :=
      fromHexList_hexEncodeList _ hbytes
    simp [verify_signature, hfind, hmsg, hne, hdec, hpk, hver]

/-- Claim C2 witness at a concrete session and message. -/
theorem claim_c2_witness :
    verify_signature cbOk demoStore ("abcdef0123456789") ("hi")
      (hexEncode (cbOk.sign [1] (utf8 ("hi")))) = VerifyResult.verdict true :=
  (claim_c2_sign_verify_roundtrip cbOk demoStore ("abcdef0123456789") ("hi")
    demoSession rfl (by decide) rfl (by simp [cbOk])
    (fun b hb => by rw [List.eq_of_mem_replicate hb]; decide)
    (fun sk m => rfl)).2

/-- Claim C5: for a stored session, a non-empty message and a well-formed
64-byte signature that the library rejects, `verify_signature` returns the
normal verdict `valid = false`, never an error result. -/
theorem claim_c5_mismatch_verdict (cr : CryptoBackend) (store : Store)
    (sid msg sigHex : String) (s : Session) (sig : List Nat)
    (hfind : lookupStore store sid = some s)
    (hmsg : msg ≠ "")
    (hdec : bytesFromHex sigHex = some sig)
    (hlen : sig.length = 64)
    (hver : cr.verifyOk s.public_key sig (utf8 msg) = false) :
    verify_signature cr store sid msg sigHex = VerifyResult.verdict false := by
  have hsig : sigHex ≠ "" := by
    intro he
    rw [he] at hdec
    have : sig = [] := by
      have h0 : bytesFromHex "" = some [] := rfl
      rw [h0] at hdec
      exact (Option.some.injEq _ _ ▸ hdec).symm
    rw [this] at hlen
    simp at hlen
  simp [verify_signature, hfind, hmsg, hsig, hdec, hver]

/-- Claim C5 witness at a concrete 64-byte signature. -/
theorem claim_c5_witness :
    verify_signature cbNever demoStore ("abcdef0123456789") ("hi")
      (hexEncode (List.replicate 64 0)) = VerifyResult.verdict false :=
  claim_c5_mismatch_verdict cbNever demoStore ("abcdef0123456789") ("hi")
    (hexEncode (List.replicate 64 0)) demoSession (List.replicate 64 0)
    rfl (by decide) (fromHexList_hexEncodeList _ (by decide)) (by decide) rfl

/-- Claim C6: on a session id absent from the store, sign, verify and key
export each return the session-not-found error.  All three handlers only
read the store (the embedding gives them read-only access, as in the
source, so no session is implicitly created). -/
theorem claim_c6_unknown_session (cr : CryptoBackend) (store : Store)
    (sid msg sigHex kt : String) (t : Nat)
    (habs : lookupStore store sid = none) :
    sign_data cr store sid msg = SignResult.sessionNotFound
    ∧ verify_signature cr store sid msg sigHex = VerifyResult.sessionNotFound
    ∧ download_keys cr store kt sid t = DownloadResult.sessionNotFound := by
  refine ⟨?_, ?_, ?_⟩
  · simp [sign_data, habs]
  · simp [verify_signature, habs]
  · simp [download_keys, habs]

/-- Claim C6 witness on the empty store. -/
theorem claim_c6_witness :
    sign_data cbOk [] ("nosuch") ("m") = SignResult.sessionNotFound
    ∧ verify_signature cbOk [] ("nosuch") ("m") ("00") = VerifyResult.sessionNotFound
    ∧ download_keys cbOk [] ("private") ("nosuch") 0 = DownloadResult.sessionNotFound :=
  claim_c6_unknown_session cbOk [] ("nosuch") ("m") ("00") ("private") 0 rfl

/-- Claim C10: for a stored session, an empty message or an empty signature
string makes `verify_signature` return the required-input error before any
hex decoding or cryptographic check, a failure mode preceding the verdict
and the decode error paths. -/
theorem claim_c10_empty_inputs (cr : CryptoBackend) (store : Store)
    (sid msg sigHex : String) (s : Session)
    (hfind : lookupStore store sid = some s)
    (h : msg = "" ∨ sigHex = "") :
    verify_signature cr store sid msg sigHex = VerifyResult.missingInput := by
  simp only [verify_signature, hfind]
  rw [if_pos h]

/-- Claim C10 witness: empty message with a syntactically invalid signature
string still gives the required-input error, showing the check precedes hex
decoding. -/
theorem claim_c10_witness :
    verify_signature cbOk demoStore ("abcdef0123456789") ("") ("zz") =
      VerifyResult.missingInput :=
  claim_c10_empty_inputs cbOk demoStore ("abcdef0123456789") ("") ("zz") demoSession
    rfl (Or.inl rfl)

/-- Claim C9: for a stored session with 32-byte keys, exporting the private
key armors the 70-byte packet 0x04, 4-byte big-endian timestamp, 0x16,
private key, public key under header PRIVATE KEY BLOCK; exporting the
public key armors the 38-byte packet 0x04, timestamp, 0x16, public key
under header PUBLIC KEY BLOCK; any other key type fails with the
invalid-key-type error. -/
theorem claim_c9_key_export (cr : CryptoBackend) (store : Store)
    (sid : String) (s : Session) (t : Nat)
    (hfind : lookupStore store sid = some s)
    (hpriv : s.private_key.length = 32)
    (hpub : s.public_key.length = 32) :
    download_keys cr store ("private") sid t =
      DownloadResult.file ("anarchy-auth-private-" ++ sid.take 8 ++ ".asc")
        (create_pgp_armor cr ([4] ++ be4 t ++ [22] ++ s.private_key ++ s.public_key)
          ("PRIVATE KEY BLOCK") (some ("Generated by Anarchy Auth - " ++ s.method)))
    ∧ ([4] ++ be4 t ++ [22] ++ s.private_key ++ s.public_key).length = 70
    ∧ download_keys cr store ("public") sid t =
      DownloadResult.file ("anarchy-auth-public-" ++ sid.take 8 ++ ".asc")
        (create_pgp_armor cr ([4] ++ be4 t ++ [22] ++ s.public_key)
          ("PUBLIC KEY BLOCK") (some ("Generated by Anarchy Auth - " ++ s.method)))
    ∧ ([4] ++ be4 t ++ [22] ++ s.public_key).length = 38
    ∧ (∀ kt : String, kt ≠ "private" → kt ≠ "public" →
        download_keys cr store kt sid t = DownloadResult.invalidKeyType) := by
  refine ⟨?_, ?_, ?_, ?_, ?_⟩
  · simp [download_keys, hfind, ed25519_to_pgp_format]
  · simp [be4, hpriv, hpub]
  · simp [download_keys, hfind, ed25519_to_pgp_format]
  · simp [be4, hpub]
  · intro kt h1 h2
    simp [download_keys, hfind, h1, h2]

/-- Claim C9 witness at a concrete session with 32-byte keys. -/
theorem claim_c9_witness :
    ([4] ++ be4 5 ++ [22] ++ demoSession32.private_key ++ demoSession32.public_key).length = 70
    ∧ download_keys cbOk demoStore32 ("bogus") ("0123456789abcdef") 5 =
      DownloadResult.invalidKeyType := by
  have h := claim_c9_key_export cbOk demoStore32 ("0123456789abcdef") demoSession32 5
    rfl (by decide) (by decide)
  exact ⟨h.2.1, h.2.2.2.2 ("bogus") (by decide) (by decide)⟩

/-- Claim C8: session creation is atomic.  When `process_iris_image` fails,
the handler returns the error and the store is unchanged; when entropy and
key derivation succeed, exactly one complete new session (id, both keys,
creation stamp, method) is inserted at the front of the store. -/
theorem claim_c8_atomic_creation (cr : CryptoBackend) (store : Store)
    (img : Option (List Nat)) (pipe : PipelineResult) (timeStr : String) (created : Nat) :
    (∀ e : String, process_iris_image cr img pipe = IrisOutcome.failure e →
      process_iris cr store img pipe timeStr created = (ProcessResult.failure e, store))
    ∧ (∀ (priv pub : List Nat) (m : String),
        process_iris_image cr img pipe = IrisOutcome.success priv pub m →
        process_iris cr store img pipe timeStr created =
          (ProcessResult.success (makeSessionId cr timeStr pub),
           (makeSessionId cr timeStr pub, Session.mk priv pub created m) :: store)) := by
  constructor
  · intro e h
    simp [process_iris, h]
  · intro priv pub m h
    simp [process_iris, h]

/-- Claim C8 witness: a failed image load returns the error and leaves the
store unchanged. -/
theorem claim_c8_witness :
    process_iris cbOk [] none PipelineResult.unavailable ("t") 0 =
      (ProcessResult.failure ("Could not load image file"), []) :=
  (claim_c8_atomic_creation cbOk [] none PipelineResult.unavailable ("t") 0).1
    ("Could not load image file") rfl
